import Mathlib

/-
Verification of the Giulia Julia-set WebGL viewer
(src/webgl_viewer/julia-viewer.js).

Shallow embedding: GLSL mediump floats and JS numbers are modelled as exact
rationals; the fragment shader, the event handlers and the initialization
sequence become pure Lean functions over that model.
-/

namespace Giulia

/-- A two-component vector, as the GLSL vec2 used by the fragment shader. -/
structure Vec2 where
  x : ℚ
  y : ℚ
  deriving DecidableEq, Repr

/-- A three-component color vector, as the GLSL vec3. -/
structure Vec3 where
  x : ℚ
  y : ℚ
  z : ℚ
  deriving DecidableEq, Repr

/-- A four-component color vector (rgba), as the GLSL vec4. -/
structure Vec4 where
  x : ℚ
  y : ℚ
  z : ℚ
  w : ℚ
  deriving DecidableEq, Repr

/-- GLSL dot product on vec2: dot(a, b) = a.x*b.x + a.y*b.y. -/
def dot2 (a b : Vec2) : ℚ := a.x * b.x + a.y * b.y

/-- GLSL mix on vec3: mix(a, b, t) = a*(1-t) + b*t componentwise. -/
def mix3 (a b : Vec3) (t : ℚ) : Vec3 :=
  ⟨a.x * (1 - t) + b.x * t, a.y * (1 - t) + b.y * t, a.z * (1 - t) + b.z * t⟩

/-- Coordinate mapping of the fragment shader (julia-viewer.js lines 128-131):
aspect = resolution.x / resolution.y;
z = ((uv - 0.5) * 2.0) / u_zoom + u_offset; z.x *= aspect. -/
def mapToComplex (resolution : Vec2) (zoom : ℚ) (offset : Vec2) (uv : Vec2) : Vec2 :=
  let aspect := resolution.x / resolution.y
  let z : Vec2 := ⟨(uv.x - 0.5) * 2.0 / zoom + offset.x,
                   (uv.y - 0.5) * 2.0 / zoom + offset.y⟩
  ⟨z.x * aspect, z.y⟩

/-- One step of the Julia iteration (julia-viewer.js lines 142-144):
new_x = z.x*z.x - z.y*z.y + c.x; new_y = 2.0*z.x*z.y + c.y. -/
def juliaStep (c z : Vec2) : Vec2 :=
  ⟨z.x * z.x - z.y * z.y + c.x, 2.0 * z.x * z.y + c.y⟩

/-- The shader iteration loop (julia-viewer.js lines 134-147), entered at loop
index i with fuel = 500 - i remaining loop slots. The loop breaks when
i reaches u_max_iterations, when dot(z, z) > 4.0, or when the WebGL constant
bound 500 is exhausted; the variable iterations always equals i, and the
returned value is its value at loop exit. -/
def juliaLoopFrom (c : Vec2) (maxIter : ℤ) : ℕ → ℕ → Vec2 → ℕ
  | 0, i, _ => i
  | fuel + 1, i, z =>
    if maxIter ≤ (i : ℤ) then i
    else if 4.0 < dot2 z z then i
    else juliaLoopFrom c maxIter fuel (i + 1) (juliaStep c z)

/-- The iteration count computed by the shader loop, starting at z with
loop index 0 and the constant WebGL bound 500. -/
def escapeCount (c : Vec2) (maxIter : ℤ) (z : Vec2) : ℕ :=
  juliaLoopFrom c maxIter 500 0 z

/-- Anchor color 1 (julia-viewer.js line 158): dark blue. -/
def color1 : Vec3 := ⟨0.1, 0.2, 0.5⟩

/-- Anchor color 2 (julia-viewer.js line 159): cyan. -/
def color2 : Vec3 := ⟨0.3, 0.8, 0.9⟩

/-- Anchor color 3 (julia-viewer.js line 160): pink/red. -/
def color3 : Vec3 := ⟨1.0, 0.4, 0.4⟩

/-- Anchor color 4 (julia-viewer.js line 161): yellow. -/
def color4 : Vec3 := ⟨1.0, 1.0, 0.5⟩

/-- The gradient of the escaped branch (julia-viewer.js lines 163-170):
three mix segments selected by t < 0.33, t < 0.66, else. -/
def juliaGradient (t : ℚ) : Vec3 :=
  if t < 0.33 then mix3 color1 color2 (t * 3.0)
  else if t < 0.66 then mix3 color2 color3 ((t - 0.33) * 3.0)
  else mix3 color3 color4 ((t - 0.66) * 3.0)

/-- Modelled from the spec wording for the coloring policy: piecewise-linear
interpolation across the four fixed anchor colors at t = 0, 0.33, 0.66, 1.0,
blending linearly within each third (factor 3 per segment). Stated separately
from juliaGradient so that the shader branch can be compared against it. -/
def specPiecewiseGradient (t : ℚ) : Vec3 :=
  if t < 0.33 then mix3 color1 color2 (t * 3.0)
  else if t < 0.66 then mix3 color2 color3 ((t - 0.33) * 3.0)
  else mix3 color3 color4 ((t - 0.66) * 3.0)

/-- The coloring policy of the shader (julia-viewer.js lines 150-173):
black if iterations == u_max_iterations, else the gradient at
t = iterations / u_max_iterations, always with alpha 1. -/
def shaderColor (n : ℕ) (maxIter : ℤ) : Vec4 :=
  if (n : ℤ) = maxIter then ⟨0.0, 0.0, 0.0, 1.0⟩
  else
    let col := juliaGradient ((n : ℚ) / (maxIter : ℚ))
    ⟨col.x, col.y, col.z, 1.0⟩

/-- The whole per-pixel fragment shader main (julia-viewer.js lines 123-174):
map uv to the complex plane, run the escape loop, color the result. -/
def shaderMain (c : Vec2) (zoom : ℚ) (offset : Vec2) (maxIter : ℤ)
    (resolution uv : Vec2) : Vec4 :=
  shaderColor (escapeCount c maxIter (mapToComplex resolution zoom offset uv)) maxIter

/-- The View State fields read by render (julia-viewer.js lines 396-422):
the uniforms u_julia_c, u_zoom, u_offset, u_max_iterations, u_resolution. -/
structure ViewState where
  c : Vec2
  zoom : ℚ
  offset : Vec2
  maxIterations : ℤ
  resolution : Vec2
  deriving DecidableEq, Repr

/-- render (julia-viewer.js lines 396-422): clears the canvas and issues one
full-viewport draw, so every pixel of the previous frame is overwritten by the
fragment shader output for the current uniforms; the result is a pixel image
indexed by the normalized coordinate uv. -/
def renderImage (st : ViewState) (_prevFrame : Vec2 → Vec4) : Vec2 → Vec4 :=
  fun uv => shaderMain st.c st.zoom st.offset st.maxIterations st.resolution uv

/-- The mutable fields of JuliaSetViewer touched by the event handlers
(julia-viewer.js lines 13-23 and 85-86). -/
structure ViewerState where
  juliaReal : ℚ
  juliaImag : ℚ
  zoom : ℚ
  offsetX : ℚ
  offsetY : ℚ
  maxIterations : ℤ
  isDragging : Bool
  lastMouseX : ℚ
  lastMouseY : ℚ
  canvasWidth : ℚ
  canvasHeight : ℚ
  deriving DecidableEq, Repr

/-- The input events handled by setupEventListeners
(julia-viewer.js lines 238-333), with their numeric payloads. -/
inductive UIEvent where
  | realSlider (v : ℚ)
  | imagSlider (v : ℚ)
  | zoomSlider (v : ℚ)
  | iterSlider (v : ℤ)
  | presetClick (r i : ℚ)
  | mousedown (x y : ℚ)
  | mousemove (x y : ℚ)
  | mouseup
  | wheel (deltaY : ℚ)
  deriving DecidableEq, Repr

/-- The wheel handler zoom update (julia-viewer.js lines 317-327):
factor 0.9 when deltaY > 0, else 1.1, then clamp via
Math.max(0.1, Math.min(10.0, zoom)). -/
def wheelZoom (zoom deltaY : ℚ) : ℚ :=
  let zoomFactor : ℚ := if 0 < deltaY then 0.9 else 1.1
  max 0.1 (min 10.0 (zoom * zoomFactor))

/-- State effect of each handler registered in setupEventListeners
(julia-viewer.js lines 238-333), as a pure state transformer. -/
def handleEvent (st : ViewerState) : UIEvent → ViewerState
  | .realSlider v => { st with juliaReal := v }
  | .imagSlider v => { st with juliaImag := v }
  | .zoomSlider v => { st with zoom := v }
  | .iterSlider v => { st with maxIterations := v }
  | .presetClick r i => { st with juliaReal := r, juliaImag := i }
  | .mousedown x y => { st with isDragging := true, lastMouseX := x, lastMouseY := y }
  | .mousemove x y =>
    if st.isDragging then
      let deltaX := (x - st.lastMouseX) / st.canvasWidth
      let deltaY := (y - st.lastMouseY) / st.canvasHeight
      { st with offsetX := st.offsetX - deltaX * 2.0 / st.zoom,
                offsetY := st.offsetY + deltaY * 2.0 / st.zoom,
                lastMouseX := x, lastMouseY := y }
    else st
  | .mouseup => { st with isDragging := false }
  | .wheel deltaY => { st with zoom := wheelZoom st.zoom deltaY }

/-- Number of this.render() calls each handler performs
(julia-viewer.js lines 238-333): every slider input, preset click and wheel
event renders once; mousemove renders only while dragging; mousedown and
mouseup never render. -/
def renderCalls (st : ViewerState) : UIEvent → ℕ
  | .realSlider _ => 1
  | .imagSlider _ => 1
  | .zoomSlider _ => 1
  | .iterSlider _ => 1
  | .presetClick _ _ => 1
  | .mousedown _ _ => 0
  | .mousemove _ _ => if st.isDragging then 1 else 0
  | .mouseup => 0
  | .wheel _ => 1

/-- Modelled from the spec: the HTML page that declares the range inputs is
not in the repository, and the zoom slider handler (julia-viewer.js lines
262-266) takes the value it receives without further checks. The spec bounds
the zoom control to [0.1, 10.0], so zoom slider events are modelled as
carrying a value in that range; every other event is unconstrained. -/
def eventZoomSafe : UIEvent → Prop
  | .zoomSlider v => 0.1 ≤ v ∧ v ≤ 10.0
  | _ => True

/-- External conditions that decide whether init succeeds
(julia-viewer.js lines 34-70): WebGL context availability, the two shader
compilations, and program linking, with their info logs. -/
structure GLEnv where
  webglAvailable : Bool
  vertexCompileOk : Bool
  fragmentCompileOk : Bool
  linkOk : Bool
  vertexLog : String
  fragmentLog : String
  linkLog : String
  deriving DecidableEq, Repr

/-- Outcome of init: either the viewer is ready after its initial renders, or
an error message was shown by showError and the given number of renders ran. -/
inductive InitResult where
  | ready (renders : ℕ)
  | failed (message : String) (renders : ℕ)
  deriving DecidableEq, Repr

/-- init (julia-viewer.js lines 34-70): resizeCanvas renders nothing while
this.gl is still null; a missing context, a failing shader compilation
(compileShader, lines 197-209) or a failing link each throw, and the catch
block forwards the message to showError prefixed with the fixed text. Only
the fully successful path reaches the initial render. -/
def initViewer (env : GLEnv) : InitResult :=
  if env.webglAvailable = false then
    InitResult.failed ("WebGL initialization failed: " ++ "WebGL not supported") 0
  else if env.vertexCompileOk = false then
    InitResult.failed ("WebGL initialization failed: "
      ++ ("An error occurred compiling the shaders: " ++ env.vertexLog)) 0
  else if env.fragmentCompileOk = false then
    InitResult.failed ("WebGL initialization failed: "
      ++ ("An error occurred compiling the shaders: " ++ env.fragmentLog)) 0
  else if env.linkOk = false then
    InitResult.failed ("WebGL initialization failed: "
      ++ ("Unable to initialize shader program: " ++ env.linkLog)) 0
  else InitResult.ready 1

/-- A concrete viewer state matching the constructor defaults
(julia-viewer.js lines 13-23) with an 800 by 600 canvas. -/
def initialState : ViewerState :=
  { juliaReal := -0.7, juliaImag := 0.27015, zoom := 1.0, offsetX := 0, offsetY := 0,
    maxIterations := 100, isDragging := false, lastMouseX := 0, lastMouseY := 0,
    canvasWidth := 800, canvasHeight := 600 }

/-- The initial state with a drag in progress. -/
def draggingState : ViewerState := { initialState with isDragging := true }

/-- An environment in which the WebGL context cannot be acquired. -/
def envNoWebgl : GLEnv :=
  { webglAvailable := false, vertexCompileOk := true, fragmentCompileOk := true,
    linkOk := true, vertexLog := "", fragmentLog := "", linkLog := "" }

/-- A concrete event sequence: one wheel notch, a zoom slider move inside the
UI range, then a drag gesture. -/
def eventsW : List UIEvent :=
  [UIEvent.wheel 1, UIEvent.zoomSlider 5, UIEvent.mousedown 3 4,
   UIEvent.mousemove 10 10, UIEvent.mouseup]

/-- Unfolding equation for one pass of the shader loop body. -/
theorem juliaLoopFrom_succ (c : Vec2) (N : ℤ) (fuel i : ℕ) (z : Vec2) :
    juliaLoopFrom c N (fuel + 1) i z =
      if N ≤ (i : ℤ) then i
      else if 4.0 < dot2 z z then i
      else juliaLoopFrom c N fuel (i + 1) (juliaStep c z) := rfl

/-- The loop never drives the iteration count past u_max_iterations: entered at
index i ≤ maxIter, it exits at an index that is still at most maxIter. -/
theorem juliaLoopFrom_le (c : Vec2) (N : ℤ) :
    ∀ (fuel i : ℕ) (z : Vec2), (i : ℤ) ≤ N → (juliaLoopFrom c N fuel i z : ℤ) ≤ N := by
  intro fuel
  induction fuel with
  | zero => intro i z h; simpa [juliaLoopFrom] using h
  | succ fuel ih =>
    intro i z h
    simp only [juliaLoopFrom]
    by_cases h1 : N ≤ (i : ℤ)
    · rw [if_pos h1]; exact h
    · rw [if_neg h1]
      by_cases h2 : (4.0 : ℚ) < dot2 z z
      · rw [if_pos h2]; exact h
      · rw [if_neg h2]
        exact ih (i + 1) (juliaStep c z) (by push_cast; omega)

/-- Whatever the deltaY, the wheel handler leaves zoom inside [0.1, 10.0]. -/
theorem wheelZoom_mem (zoom deltaY : ℚ) :
    0.1 ≤ wheelZoom zoom deltaY ∧ wheelZoom zoom deltaY ≤ 10.0 := by
  simp only [wheelZoom]
  exact ⟨le_max_left _ _, max_le (by norm_num) (min_le_left _ _)⟩

/-- Claim C1: for every c, zoom, offset, nonnegative maxIterations N and pixel
coordinate uv, the escape-time count of the shader iteration (quadratic map
z to z squared plus c, stopped at the first of escape, N iterations, or the
WebGL bound) lies in [0, N]. -/
theorem escape_count_in_range (c : Vec2) (zoom : ℚ) (offset : Vec2) (N : ℤ)
    (res uv : Vec2) (hN : 0 ≤ N) :
    0 ≤ escapeCount c N (mapToComplex res zoom offset uv) ∧
    (escapeCount c N (mapToComplex res zoom offset uv) : ℤ) ≤ N :=
  ⟨Nat.zero_le _, juliaLoopFrom_le c N 500 0 _ (by simpa using hN)⟩

/-- Witness for C1 at the default parameters and the center pixel. -/
theorem escape_count_in_range_witness :
    (0 : ℤ) ≤ 100 ∧
    (0 ≤ escapeCount ⟨-0.7, 0.27015⟩ 100 (mapToComplex ⟨800, 600⟩ 1 ⟨0, 0⟩ ⟨0.5, 0.5⟩) ∧
     (escapeCount ⟨-0.7, 0.27015⟩ 100 (mapToComplex ⟨800, 600⟩ 1 ⟨0, 0⟩ ⟨0.5, 0.5⟩) : ℤ) ≤ 100) :=
  ⟨by decide,
   escape_count_in_range ⟨-0.7, 0.27015⟩ 1 ⟨0, 0⟩ 100 ⟨800, 600⟩ ⟨0.5, 0.5⟩ (by decide)⟩

/-- Claim C2: a pixel whose escape count equals maxIterations renders exactly
black with full opacity, color (0, 0, 0, 1). -/
theorem shader_inset_black (c : Vec2) (zoom : ℚ) (offset : Vec2) (N : ℤ) (res uv : Vec2)
    (h : (escapeCount c N (mapToComplex res zoom offset uv) : ℤ) = N) :
    shaderMain c zoom offset N res uv = ⟨0.0, 0.0, 0.0, 1.0⟩ := by
  unfold shaderMain shaderColor
  rw [if_pos h]

/-- Witness for C2: c = 0, the center pixel never escapes, so with N = 1 the
count reaches 1 and the pixel is black. -/
theorem shader_inset_black_witness :
    (escapeCount ⟨0, 0⟩ 1 (mapToComplex ⟨1, 1⟩ 1 ⟨0, 0⟩ ⟨0.5, 0.5⟩) : ℤ) = 1 ∧
    shaderMain ⟨0, 0⟩ 1 ⟨0, 0⟩ 1 ⟨1, 1⟩ ⟨0.5, 0.5⟩ = ⟨0.0, 0.0, 0.0, 1.0⟩ := by
  have hmap : mapToComplex ⟨1, 1⟩ 1 ⟨0, 0⟩ ⟨0.5, 0.5⟩ = (⟨0, 0⟩ : Vec2) := by
    norm_num [mapToComplex]
  have h : (escapeCount ⟨0, 0⟩ 1 (mapToComplex ⟨1, 1⟩ 1 ⟨0, 0⟩ ⟨0.5, 0.5⟩) : ℤ) = 1 := by
    rw [hmap, escapeCount]
    rw [show (500 : ℕ) = 499 + 1 from rfl, juliaLoopFrom_succ]
    norm_num [dot2, juliaStep]
    rw [show (499 : ℕ) = 498 + 1 from rfl, juliaLoopFrom_succ]
    norm_num
  exact ⟨h, shader_inset_black ⟨0, 0⟩ 1 ⟨0, 0⟩ 1 ⟨1, 1⟩ ⟨0.5, 0.5⟩ h⟩

/-- Claim C3: a pixel with escape count n < maxIterations gets the
piecewise-linear four-anchor gradient color at t = n / maxIterations with
alpha 1, and n = 0 yields exactly the dark blue first anchor. -/
theorem shader_gradient_branch (c : Vec2) (zoom : ℚ) (offset : Vec2) (N : ℤ)
    (res uv : Vec2)
    (h : (escapeCount c N (mapToComplex res zoom offset uv) : ℤ) < N) :
    (shaderMain c zoom offset N res uv
      = ⟨(specPiecewiseGradient
            ((escapeCount c N (mapToComplex res zoom offset uv) : ℚ) / (N : ℚ))).x,
         (specPiecewiseGradient
            ((escapeCount c N (mapToComplex res zoom offset uv) : ℚ) / (N : ℚ))).y,
         (specPiecewiseGradient
            ((escapeCount c N (mapToComplex res zoom offset uv) : ℚ) / (N : ℚ))).z,
         1.0⟩)
    ∧ (escapeCount c N (mapToComplex res zoom offset uv) = 0 →
        shaderMain c zoom offset N res uv = ⟨0.1, 0.2, 0.5, 1.0⟩) := by
  have hne : (escapeCount c N (mapToComplex res zoom offset uv) : ℤ) ≠ N := ne_of_lt h
  constructor
  · unfold shaderMain shaderColor
    rw [if_neg hne]
    rfl
  · intro h0
    unfold shaderMain shaderColor
    rw [if_neg hne, h0]
    norm_num [juliaGradient, mix3, color1, color2]

/-- Witness for C3: with offset (3, 0) the pixel at uv = (1, 1) starts at
z = (4, 1), escapes before the first completed iteration (n = 0 of 100), and
is colored by the gradient, here the dark blue first anchor. -/
theorem shader_gradient_branch_witness :
    (escapeCount ⟨0, 0⟩ 100 (mapToComplex ⟨1, 1⟩ 1 ⟨3, 0⟩ ⟨1, 1⟩) : ℤ) < 100 ∧
    ((shaderMain ⟨0, 0⟩ 1 ⟨3, 0⟩ 100 ⟨1, 1⟩ ⟨1, 1⟩
      = ⟨(specPiecewiseGradient
            ((escapeCount ⟨0, 0⟩ 100 (mapToComplex ⟨1, 1⟩ 1 ⟨3, 0⟩ ⟨1, 1⟩) : ℚ) / (100 : ℚ))).x,
         (specPiecewiseGradient
            ((escapeCount ⟨0, 0⟩ 100 (mapToComplex ⟨1, 1⟩ 1 ⟨3, 0⟩ ⟨1, 1⟩) : ℚ) / (100 : ℚ))).y,
         (specPiecewiseGradient
            ((escapeCount ⟨0, 0⟩ 100 (mapToComplex ⟨1, 1⟩ 1 ⟨3, 0⟩ ⟨1, 1⟩) : ℚ) / (100 : ℚ))).z,
         1.0⟩)
     ∧ (escapeCount ⟨0, 0⟩ 100 (mapToComplex ⟨1, 1⟩ 1 ⟨3, 0⟩ ⟨1, 1⟩) = 0 →
         shaderMain ⟨0, 0⟩ 1 ⟨3, 0⟩ 100 ⟨1, 1⟩ ⟨1, 1⟩ = ⟨0.1, 0.2, 0.5, 1.0⟩)) := by
  have hmap : mapToComplex ⟨1, 1⟩ 1 ⟨3, 0⟩ ⟨1, 1⟩ = (⟨4, 1⟩ : Vec2) := by
    norm_num [mapToComplex]
  have h : (escapeCount ⟨0, 0⟩ 100 (mapToComplex ⟨1, 1⟩ 1 ⟨3, 0⟩ ⟨1, 1⟩) : ℤ) < 100 := by
    rw [hmap, escapeCount]
    rw [show (500 : ℕ) = 499 + 1 from rfl, juliaLoopFrom_succ]
    norm_num [dot2, juliaStep]
  exact ⟨h, shader_gradient_branch ⟨0, 0⟩ 1 ⟨3, 0⟩ 100 ⟨1, 1⟩ ⟨1, 1⟩ h⟩

/-- Claim C4: the shader maps uv to the complex starting point
((uv - 0.5) * 2.0) / zoom + offset, with the real component scaled by
aspect = width / height. -/
theorem uv_complex_mapping (res : Vec2) (zoom : ℚ) (offset uv : Vec2) :
    mapToComplex res zoom offset uv
      = ⟨((uv.x - 0.5) * 2.0 / zoom + offset.x) * (res.x / res.y),
         (uv.y - 0.5) * 2.0 / zoom + offset.y⟩ := rfl

/-- Claim C5: starting from any zoom in [0.1, 10.0], any finite sequence of
wheel events (factor 0.9 or 1.1, then clamp) keeps zoom within [0.1, 10.0]. -/
theorem wheel_zoom_clamped (deltas : List ℚ) :
    ∀ z0 : ℚ, 0.1 ≤ z0 ∧ z0 ≤ 10.0 →
      0.1 ≤ deltas.foldl wheelZoom z0 ∧ deltas.foldl wheelZoom z0 ≤ 10.0 := by
  induction deltas with
  | nil => intro z0 h; exact h
  | cons d ds ih =>
    intro z0 h
    simp only [List.foldl_cons]
    exact ih (wheelZoom z0 d) (wheelZoom_mem z0 d)

/-- Witness for C5: zoom 1, one notch in and one notch out. -/
theorem wheel_zoom_clamped_witness :
    ((0.1 : ℚ) ≤ 1 ∧ (1 : ℚ) ≤ 10.0) ∧
    (0.1 ≤ [(1 : ℚ), -1].foldl wheelZoom 1 ∧ [(1 : ℚ), -1].foldl wheelZoom 1 ≤ 10.0) :=
  ⟨by norm_num, wheel_zoom_clamped [1, -1] 1 (by norm_num)⟩

/-- A single handler application keeps zoom inside the UI range, provided a
zoom slider event carries an in-range value. -/
theorem handleEvent_zoom_mem (st : ViewerState) (e : UIEvent)
    (hst : 0.1 ≤ st.zoom ∧ st.zoom ≤ 10.0) (he : eventZoomSafe e) :
    0.1 ≤ (handleEvent st e).zoom ∧ (handleEvent st e).zoom ≤ 10.0 := by
  cases e with
  | realSlider v => exact hst
  | imagSlider v => exact hst
  | zoomSlider v => exact he
  | iterSlider v => exact hst
  | presetClick r i => exact hst
  | mousedown x y => exact hst
  | mousemove x y =>
    simp only [handleEvent]
    split
    · exact hst
    · exact hst
  | mouseup => exact hst
  | wheel d => exact wheelZoom_mem st.zoom d

/-- Processing any list of in-range events keeps zoom inside [0.1, 10.0]. -/
theorem foldl_zoom_mem (evs : List UIEvent) :
    ∀ st : ViewerState, 0.1 ≤ st.zoom ∧ st.zoom ≤ 10.0 →
      (∀ e ∈ evs, eventZoomSafe e) →
      0.1 ≤ (evs.foldl handleEvent st).zoom ∧ (evs.foldl handleEvent st).zoom ≤ 10.0 := by
  induction evs with
  | nil => intro st hst _; exact hst
  | cons e es ih =>
    intro st hst hevs
    simp only [List.foldl_cons]
    exact ih (handleEvent st e)
      (handleEvent_zoom_mem st e hst (hevs e (by simp)))
      (fun x hx => hevs x (by simp [hx]))

/-- Claim C6: with the slider ranges of the UI, every sequence of runtime
parameter updates keeps zoom inside [0.1, 10.0] and in particular nonzero, so
the divisions by zoom in the drag handler and in the shader coordinate
mapping never divide by zero. -/
theorem zoom_never_zero (st : ViewerState) (evs : List UIEvent)
    (hst : 0.1 ≤ st.zoom ∧ st.zoom ≤ 10.0)
    (hevs : ∀ e ∈ evs, eventZoomSafe e) :
    0.1 ≤ (evs.foldl handleEvent st).zoom ∧ (evs.foldl handleEvent st).zoom ≤ 10.0 ∧
    (evs.foldl handleEvent st).zoom ≠ 0 := by
  obtain ⟨h1, h2⟩ := foldl_zoom_mem evs st hst hevs
  refine ⟨h1, h2, ?_⟩
  intro h0
  rw [h0] at h1
  norm_num at h1

/-- Witness for C6: the default state through a wheel notch, a slider move
and a full drag gesture. -/
theorem zoom_never_zero_witness :
    ((0.1 : ℚ) ≤ initialState.zoom ∧ initialState.zoom ≤ 10.0) ∧
    (∀ e ∈ eventsW, eventZoomSafe e) ∧
    (0.1 ≤ (eventsW.foldl handleEvent initialState).zoom ∧
     (eventsW.foldl handleEvent initialState).zoom ≤ 10.0 ∧
     (eventsW.foldl handleEvent initialState).zoom ≠ 0) := by
  have h1 : (0.1 : ℚ) ≤ initialState.zoom ∧ initialState.zoom ≤ 10.0 := by
    norm_num [initialState]
  have h2 : ∀ e ∈ eventsW, eventZoomSafe e := by
    intro e he
    fin_cases he <;> norm_num [eventZoomSafe]
  exact ⟨h1, h2, zoom_never_zero initialState eventsW h1 h2⟩

/-- Claim C7: the rendered image is a pure function of the View State at the
moment render is invoked; two renders with the same state produce
pixel-identical output regardless of the previous frame contents, and
re-rendering an unchanged state reproduces the frame. -/
theorem render_pure_of_state (st : ViewState) (p q : Vec2 → Vec4) :
    renderImage st p = renderImage st q ∧
    renderImage st (renderImage st p) = renderImage st p :=
  ⟨rfl, rfl⟩

/-- Claim C8: a preset click with data values -0.4 and 0.6 sets c to exactly
(-0.4, 0.6), leaves zoom, offset and maxIterations unchanged, and performs
exactly one render call. -/
theorem preset_click_sets_c (st : ViewerState) :
    handleEvent st (UIEvent.presetClick (-0.4) 0.6)
      = { st with juliaReal := -0.4, juliaImag := 0.6 } ∧
    (handleEvent st (UIEvent.presetClick (-0.4) 0.6)).juliaReal = -0.4 ∧
    (handleEvent st (UIEvent.presetClick (-0.4) 0.6)).juliaImag = 0.6 ∧
    (handleEvent st (UIEvent.presetClick (-0.4) 0.6)).zoom = st.zoom ∧
    (handleEvent st (UIEvent.presetClick (-0.4) 0.6)).offsetX = st.offsetX ∧
    (handleEvent st (UIEvent.presetClick (-0.4) 0.6)).offsetY = st.offsetY ∧
    (handleEvent st (UIEvent.presetClick (-0.4) 0.6)).maxIterations = st.maxIterations ∧
    renderCalls st (UIEvent.presetClick (-0.4) 0.6) = 1 :=
  ⟨rfl, rfl, rfl, rfl, rfl, rfl, rfl, rfl⟩

/-- Claim C9: if initialization fails at context acquisition, shader
compilation or program linking, the viewer surfaces a human-readable message
through showError and performs zero renders, with no retry and no software
fallback path. -/
theorem init_failure_fatal (env : GLEnv)
    (h : env.webglAvailable = false ∨ env.vertexCompileOk = false ∨
         env.fragmentCompileOk = false ∨ env.linkOk = false) :
    ∃ details : String,
      initViewer env = InitResult.failed ("WebGL initialization failed: " ++ details) 0 := by
  unfold initViewer
  by_cases h1 : env.webglAvailable = false
  · rw [if_pos h1]; exact ⟨_, rfl⟩
  · rw [if_neg h1]
    by_cases h2 : env.vertexCompileOk = false
    · rw [if_pos h2]; exact ⟨_, rfl⟩
    · rw [if_neg h2]
      by_cases h3 : env.fragmentCompileOk = false
      · rw [if_pos h3]; exact ⟨_, rfl⟩
      · rw [if_neg h3]
        by_cases h4 : env.linkOk = false
        · rw [if_pos h4]; exact ⟨_, rfl⟩
        · rcases h with h | h | h | h
          · exact absurd h h1
          · exact absurd h h2
          · exact absurd h h3
          · exact absurd h h4

/-- Witness for C9: an environment with no WebGL context. -/
theorem init_failure_fatal_witness :
    (envNoWebgl.webglAvailable = false ∨ envNoWebgl.vertexCompileOk = false ∨
     envNoWebgl.fragmentCompileOk = false ∨ envNoWebgl.linkOk = false) ∧
    ∃ details : String,
      initViewer envNoWebgl
        = InitResult.failed ("WebGL initialization failed: " ++ details) 0 :=
  ⟨Or.inl rfl, init_failure_fatal envNoWebgl (Or.inl rfl)⟩

/-- Claim C10: a mousemove with no drag in progress leaves the state
untouched; a mousemove during a drag updates only the offsets and the
last-mouse tracking fields, leaving c, zoom and maxIterations (and the
remaining fields) unchanged. -/
theorem mousemove_frame_effect (st : ViewerState) (x y : ℚ) :
    (st.isDragging = false → handleEvent st (UIEvent.mousemove x y) = st) ∧
    (st.isDragging = true →
      (handleEvent st (UIEvent.mousemove x y)).juliaReal = st.juliaReal ∧
      (handleEvent st (UIEvent.mousemove x y)).juliaImag = st.juliaImag ∧
      (handleEvent st (UIEvent.mousemove x y)).zoom = st.zoom ∧
      (handleEvent st (UIEvent.mousemove x y)).maxIterations = st.maxIterations ∧
      (handleEvent st (UIEvent.mousemove x y)).isDragging = st.isDragging ∧
      (handleEvent st (UIEvent.mousemove x y)).canvasWidth = st.canvasWidth ∧
      (handleEvent st (UIEvent.mousemove x y)).canvasHeight = st.canvasHeight ∧
      (handleEvent st (UIEvent.mousemove x y)).offsetX
        = st.offsetX - (x - st.lastMouseX) / st.canvasWidth * 2.0 / st.zoom ∧
      (handleEvent st (UIEvent.mousemove x y)).offsetY
        = st.offsetY + (y - st.lastMouseY) / st.canvasHeight * 2.0 / st.zoom ∧
      (handleEvent st (UIEvent.mousemove x y)).lastMouseX = x ∧
      (handleEvent st (UIEvent.mousemove x y)).lastMouseY = y) := by
  constructor
  · intro h
    simp [handleEvent, h]
  · intro h
    simp [handleEvent, h]

/-- Witness for C10: the default non-dragging state is untouched, and the
dragging variant keeps zoom and c. -/
theorem mousemove_frame_effect_witness :
    (handleEvent initialState (UIEvent.mousemove 12 34) = initialState) ∧
    (handleEvent draggingState (UIEvent.mousemove 12 34)).zoom = draggingState.zoom ∧
    (handleEvent draggingState (UIEvent.mousemove 12 34)).juliaReal
      = draggingState.juliaReal :=
  ⟨(mousemove_frame_effect initialState 12 34).1 rfl,
   ((mousemove_frame_effect draggingState 12 34).2 rfl).2.2.1,
   ((mousemove_frame_effect draggingState 12 34).2 rfl).1⟩

end Giulia
